import Mathlib

/-!
Verification of the photo FFI shim (src/src/photo/photo_async.cpp).

The shim adapts native computational-photography routines to a flat C surface:
every entry point dereferences borrowed input handles, invokes one native
routine with its scalar parameters forwarded in order, wraps the freshly
computed output in newly allocated handles, invokes the caller-supplied
callback with them, and returns a Status produced by an exception-trapping
envelope.

The embedding models handles as addresses into a heap of native objects, the
native library as an oracle of pure functions that may raise, callback
invocations as recorded events, and each entry point as a step on that world.
-/

namespace PhotoAsync

/-! ## Data model: native objects, handles, heap, events -/

/-- Contents of a native image matrix (cv::Mat): shape plus pixel data.
The shim never inspects these fields; they only make bit-identity of
outputs a decidable statement. -/
structure MatData where
  rows : Nat
  cols : Nat
  channels : Nat
  pixels : List Int
deriving DecidableEq, Repr

/-- Configuration of a cv::MergeMertens exposure-fusion algorithm object. -/
structure FuseData where
  contrast_weight : Rat
  saturation_weight : Rat
  exposure_weight : Rat
deriving DecidableEq, Repr

/-- Configuration of a cv::AlignMTB multi-exposure alignment algorithm object. -/
structure AlignData where
  max_bits : Int
  exclude_range : Int
  cut : Bool
deriving DecidableEq, Repr

/-- A native object reachable from a handle: a matrix (handle type Mat),
a matrix sequence (VecMat), or an algorithm object (MergeMertens, AlignMTB). -/
inductive Obj where
  | mat (m : MatData)
  | vecmat (v : List MatData)
  | fuse (f : FuseData)
  | align (a : AlignData)
deriving DecidableEq, Repr

/-- A handle is an address into the heap of native objects. -/
abbrev Addr := Nat

/-- One callback invocation, with the handle addresses it delivered: one for
the one-argument invocations, two for the two-argument PencilSketch
invocation. -/
inductive Event where
  | cb1 (a : Addr)
  | cb2 (a1 a2 : Addr)
deriving DecidableEq, Repr

/-- The addresses delivered by a callback invocation. -/
def Event.addrs : Event → List Addr
  | .cb1 a => [a]
  | .cb2 a1 a2 => [a1, a2]

/-- The observable world of one entry-point call: the heap of allocated native
objects (a released slot is `none`) and the trace of callback invocations. -/
structure World where
  heap : List (Option Obj)
  events : List Event
deriving DecidableEq, Repr

/-- An exceptional condition raised while running an entry-point body:
either a cv::Exception from the native library carrying its message, or an
unclassified condition. -/
inductive CvExn where
  | libExn (msg : String)
  | otherExn
deriving DecidableEq, Repr

/-- The CvStatus pointer returned by every entry point. `Status.ok` models the
null pointer that signals success; the failure forms carry the message plus
the file/line marker of the catch site. -/
inductive Status where
  | ok
  | libraryError (msg : String) (file : String) (line : Nat)
  | internalError (msg : String) (file : String) (line : Nat)
deriving DecidableEq, Repr

/-- `true` exactly on the success sentinel. -/
def Status.isOk : Status → Bool
  | .ok => true
  | _ => false

/-- Caller-supplied one-handle completion callback (CvCallback_1). Invoking it
may itself raise, which the surrounding envelope then traps. -/
abbrev CB1 := Addr → Except CvExn Unit

/-- The two-argument callback shape with which PencilSketch_Async invokes its
callback at photo_async.cpp:156. Note that the source nonetheless declares
that parameter with the one-handle type CvCallback_1 (photo_async.cpp:153);
this declared/invoked mismatch is the subject of claim C4. -/
abbrev CB2 := Addr → Addr → Except CvExn Unit

/-! ## The native library oracle

The actual image-processing algorithms are external to the shim; they are
modelled as an arbitrary record of pure functions that either return output
data or raise. Each field mirrors one native routine the shim consumes, with
its documented parameter order. C float parameters become `Rat`, C int
parameters become `Int`. -/

structure NativeLib where
  colorChange : MatData → MatData → Rat → Rat → Rat → Except CvExn MatData
  seamlessClone : MatData → MatData → MatData → Int → Int → Int → Except CvExn MatData
  illuminationChange : MatData → MatData → Rat → Rat → Except CvExn MatData
  textureFlattening : MatData → MatData → Rat → Rat → Int → Except CvExn MatData
  fastNlMeansDenoisingColoredMulti :
    List MatData → Int → Int → Rat → Rat → Int → Int → Except CvExn MatData
  fastNlMeansDenoising : MatData → Rat → Int → Int → Except CvExn MatData
  fastNlMeansDenoisingColored : MatData → Rat → Rat → Int → Int → Except CvExn MatData
  createMergeMertens : Rat → Rat → Rat → Except CvExn FuseData
  mergeMertensProcess : FuseData → List MatData → Except CvExn MatData
  createAlignMTB : Int → Int → Bool → Except CvExn AlignData
  alignMTBProcess : AlignData → List MatData → Except CvExn (List MatData)
  detailEnhance : MatData → Rat → Rat → Except CvExn MatData
  edgePreservingFilter : MatData → Int → Rat → Rat → Except CvExn MatData
  pencilSketch : MatData → MatData → MatData → Rat → Rat → Rat → Except CvExn (MatData × MatData)
  stylization : MatData → Rat → Rat → Except CvExn MatData
  inpaint : MatData → MatData → Rat → Int → Except CvExn MatData

/-! ## The entry points -/

/-- One invocation of an entry point of photo_async.cpp, with its handle
arguments (addresses) and scalar parameters. Constructor names match the
source function names. -/
inductive Call where
  | ColorChange_Async (src mask : Addr) (red_mul green_mul blue_mul : Rat)
  | SeamlessClone_Async (src dst mask : Addr) (px py : Int) (flags : Int)
  | IlluminationChange_Async (src mask : Addr) (alpha beta : Rat)
  | TextureFlattening_Async (src mask : Addr) (low_threshold high_threshold : Rat)
      (kernel_size : Int)
  | FastNlMeansDenoisingColoredMulti_Async (src : Addr)
      (imgToDenoiseIndex temporalWindowSize : Int)
  | FastNlMeansDenoisingColoredMultiWithParams_Async (src : Addr)
      (imgToDenoiseIndex temporalWindowSize : Int) (h hColor : Rat)
      (templateWindowSize searchWindowSize : Int)
  | FastNlMeansDenoising_Async (src : Addr)
  | FastNlMeansDenoisingWithParams_Async (src : Addr) (h : Rat)
      (templateWindowSize searchWindowSize : Int)
  | FastNlMeansDenoisingColored_Async (src : Addr)
  | FastNlMeansDenoisingColoredWithParams_Async (src : Addr) (h hColor : Rat)
      (templateWindowSize searchWindowSize : Int)
  | MergeMertens_Create_Async
  | MergeMertens_CreateWithParams_Async (contrast_weight saturation_weight exposure_weight : Rat)
  | MergeMertens_Process_Async (b src : Addr)
  | AlignMTB_Create_Async
  | AlignMTB_CreateWithParams_Async (max_bits exclude_range : Int) (cut : Bool)
  | AlignMTB_Process_Async (b src : Addr)
  | DetailEnhance_Async (src : Addr) (sigma_s sigma_r : Rat)
  | EdgePreservingFilter_Async (src : Addr) (filter : Int) (sigma_s sigma_r : Rat)
  | PencilSketch_Async (src dst1 dst2 : Addr) (sigma_s sigma_r shade_factor : Rat)
  | Stylization_Async (src : Addr) (sigma_s sigma_r : Rat)
  | PhotoInpaint_Async (src mask : Addr) (inpaint_radius : Rat) (algorithm_type : Int)
deriving DecidableEq, Repr

/-- The handle arguments of a call, i.e. the borrowed inputs. -/
def Call.inputs : Call → List Addr
  | .ColorChange_Async src mask _ _ _ => [src, mask]
  | .SeamlessClone_Async src dst mask _ _ _ => [src, dst, mask]
  | .IlluminationChange_Async src mask _ _ => [src, mask]
  | .TextureFlattening_Async src mask _ _ _ => [src, mask]
  | .FastNlMeansDenoisingColoredMulti_Async src _ _ => [src]
  | .FastNlMeansDenoisingColoredMultiWithParams_Async src _ _ _ _ _ _ => [src]
  | .FastNlMeansDenoising_Async src => [src]
  | .FastNlMeansDenoisingWithParams_Async src _ _ _ => [src]
  | .FastNlMeansDenoisingColored_Async src => [src]
  | .FastNlMeansDenoisingColoredWithParams_Async src _ _ _ _ => [src]
  | .MergeMertens_Create_Async => []
  | .MergeMertens_CreateWithParams_Async _ _ _ => []
  | .MergeMertens_Process_Async b src => [b, src]
  | .AlignMTB_Create_Async => []
  | .AlignMTB_CreateWithParams_Async _ _ _ => []
  | .AlignMTB_Process_Async b src => [b, src]
  | .DetailEnhance_Async src _ _ => [src]
  | .EdgePreservingFilter_Async src _ _ _ => [src]
  | .PencilSketch_Async src dst1 dst2 _ _ _ => [src, dst1, dst2]
  | .Stylization_Async src _ _ => [src]
  | .PhotoInpaint_Async src mask _ _ => [src, mask]

/-- Whether the callback invocation site of the entry point passes two
arguments. Only PencilSketch_Async does
(`callback(new Mat{new cv::Mat(*dst1.ptr)}, new Mat{new cv::Mat(*dst2.ptr)})`,
photo_async.cpp:156); every other entry point invokes with one argument. -/
def Call.invokesWithTwo : Call → Bool
  | .PencilSketch_Async _ _ _ _ _ _ => true
  | _ => false

/-- The arity of the callback type each entry point DECLARES for its callback
parameter. In photo_async.cpp every entry point, PencilSketch_Async
(line 153) included, declares `CvCallback_1 callback` — the one-handle
type — so this is 1 for every call, although the PencilSketch_Async body
invokes the callback with two arguments (see `Call.invokesWithTwo`). -/
def Call.declaredArity : Call → Nat
  | _ => 1

/-- Source line of the END_WRAP catch site of each entry point in
photo_async.cpp. -/
def Call.endLine : Call → Nat
  | .ColorChange_Async _ _ _ _ _ => 11
  | .SeamlessClone_Async _ _ _ _ _ _ => 20
  | .IlluminationChange_Async _ _ _ _ => 29
  | .TextureFlattening_Async _ _ _ _ _ => 38
  | .FastNlMeansDenoisingColoredMulti_Async _ _ _ => 47
  | .FastNlMeansDenoisingColoredMultiWithParams_Async _ _ _ _ _ _ _ => 55
  | .FastNlMeansDenoising_Async _ => 64
  | .FastNlMeansDenoisingWithParams_Async _ _ _ _ => 72
  | .FastNlMeansDenoisingColored_Async _ => 81
  | .FastNlMeansDenoisingColoredWithParams_Async _ _ _ _ _ => 89
  | .MergeMertens_Create_Async => 96
  | .MergeMertens_CreateWithParams_Async _ _ _ => 102
  | .MergeMertens_Process_Async _ _ => 110
  | .AlignMTB_Create_Async => 117
  | .AlignMTB_CreateWithParams_Async _ _ _ => 123
  | .AlignMTB_Process_Async _ _ => 131
  | .DetailEnhance_Async _ _ _ => 140
  | .EdgePreservingFilter_Async _ _ _ _ => 149
  | .PencilSketch_Async _ _ _ _ _ _ => 157
  | .Stylization_Async _ _ _ => 166
  | .PhotoInpaint_Async _ _ _ _ => 175

/-! ## Dereferencing borrowed handles

In C the entry points read `*h.ptr`. Dereferencing a handle whose address does
not hold an object of the expected kind is undefined behaviour; the model
returns `none` for the whole call in that case. -/

/-- Read the matrix behind a Mat handle. -/
def derefMat (w : World) (a : Addr) : Option MatData :=
  match w.heap[a]? with
  | some (some (Obj.mat m)) => some m
  | _ => none

/-- Read the sequence behind a VecMat handle. -/
def derefVecMat (w : World) (a : Addr) : Option (List MatData) :=
  match w.heap[a]? with
  | some (some (Obj.vecmat v)) => some v
  | _ => none

/-- Read the algorithm object behind a MergeMertens handle. -/
def derefFuse (w : World) (a : Addr) : Option FuseData :=
  match w.heap[a]? with
  | some (some (Obj.fuse f)) => some f
  | _ => none

/-- Read the algorithm object behind an AlignMTB handle. -/
def derefAlign (w : World) (a : Addr) : Option AlignData :=
  match w.heap[a]? with
  | some (some (Obj.align al)) => some al
  | _ => none

/-! ## Body outcomes and their execution -/

/-- What an entry-point body does after dereferencing its inputs: the native
routine raised (nothing delivered), or one fresh output object is delivered
through CB1, or — PencilSketch only — the two scratch buffers dst1 and dst2
are overwritten with the computed sketch and rendering, copies of which are
delivered through CB2. -/
inductive Outcome where
  | fail (e : CvExn)
  | out1 (o : Obj)
  | outPencil (dst1 dst2 : Addr) (m1 m2 : MatData)
deriving DecidableEq, Repr

/-- Wrap the result of a single-output native routine: an exception becomes a
failing outcome, a result becomes the one object to deliver. -/
def liftOut {α : Type} (f : α → Obj) : Except CvExn α → Outcome
  | .error e => .fail e
  | .ok x => .out1 (f x)

/-- The exception component of an outcome. -/
def Outcome.toExcept : Outcome → Except CvExn Unit
  | .fail e => .error e
  | _ => .ok ()

/-- Overwrite the object at an already-allocated address (the PencilSketch
scratch-buffer write through a borrowed Mat handle). -/
def writeHeap (w : World) (a : Addr) (o : Obj) : World :=
  { w with heap := w.heap.set a (some o) }

/-- Allocate a fresh native object behind a fresh handle, record the CB1
invocation delivering it, and return the callback result
(`callback(new Mat{new cv::Mat(_dst)})` and its analogues). -/
def deliver1 (cb1 : CB1) (w : World) (o : Obj) : World × Except CvExn Unit :=
  let a := w.heap.length
  ({ heap := w.heap ++ [some o], events := w.events ++ [Event.cb1 a] }, cb1 a)

/-- Allocate two fresh native objects behind two fresh handles and record the
two-argument invocation delivering them. This models the call site
`callback(new Mat{new cv::Mat(*dst1.ptr)}, new Mat{new cv::Mat(*dst2.ptr)})`
of photo_async.cpp:156 as written — two arguments — even though the source
declares that callback parameter with the one-handle type CvCallback_1; the
mismatch is recorded by `Call.declaredArity` and exposed in claim C4. -/
def deliver2 (cb2 : CB2) (w : World) (o1 o2 : Obj) : World × Except CvExn Unit :=
  let a1 := w.heap.length
  ({ heap := w.heap ++ [some o1, some o2], events := w.events ++ [Event.cb2 a1 (a1 + 1)] },
    cb2 a1 (a1 + 1))

/-- Execute an outcome against the world: a failure delivers nothing and
re-raises; a single output is allocated and delivered through the
one-argument callback; the PencilSketch outcome first overwrites the two
borrowed scratch buffers, then allocates copies of them
(`new cv::Mat(*dst1.ptr)`, `new cv::Mat(*dst2.ptr)`) and delivers both
through the two-argument invocation of photo_async.cpp:156 (whose parameter
the source mis-declares as CvCallback_1; see claim C4). -/
def execOutcome (cb1 : CB1) (cb2 : CB2) (w : World) : Outcome → World × Except CvExn Unit
  | .fail e => (w, Except.error e)
  | .out1 o => deliver1 cb1 w o
  | .outPencil d1 d2 m1 m2 =>
      deliver2 cb2 (writeHeap (writeHeap w d1 (Obj.mat m1)) d2 (Obj.mat m2))
        (Obj.mat m1) (Obj.mat m2)

/-! ## The bodies of the entry points

Each branch mirrors the corresponding function of photo_async.cpp: the
dereferences of its handle arguments, then the native call with the scalar
parameters forwarded unchanged in the documented order. A parameter-free
form calls the same native routine at the default argument values declared in
the external library header (fastNlMeansDenoising: h = 3,
templateWindowSize = 7, searchWindowSize = 21; the colored and multi forms
additionally hColor = 3; createMergeMertens: 1, 1, 0;
createAlignMTB: 6, 4, true), as the spec documents. -/

/-- Outcome of the PencilSketch body after the native call: a raised condition
fails the body; a result pair overwrites the two scratch buffers. -/
def pencilOut (dst1 dst2 : Addr) : Except CvExn (MatData × MatData) → Outcome
  | .error e => Outcome.fail e
  | .ok (m1, m2) => Outcome.outPencil dst1 dst2 m1 m2

def interp (lib : NativeLib) (w : World) : Call → Option Outcome
  | .ColorChange_Async src mask red_mul green_mul blue_mul =>
      (derefMat w src).bind fun s =>
      (derefMat w mask).bind fun mk =>
      some (liftOut Obj.mat (lib.colorChange s mk red_mul green_mul blue_mul))
  | .SeamlessClone_Async src dst mask px py flags =>
      (derefMat w src).bind fun s =>
      (derefMat w dst).bind fun d =>
      (derefMat w mask).bind fun mk =>
      some (liftOut Obj.mat (lib.seamlessClone s d mk px py flags))
  | .IlluminationChange_Async src mask alpha beta =>
      (derefMat w src).bind fun s =>
      (derefMat w mask).bind fun mk =>
      some (liftOut Obj.mat (lib.illuminationChange s mk alpha beta))
  | .TextureFlattening_Async src mask low_threshold high_threshold kernel_size =>
      (derefMat w src).bind fun s =>
      (derefMat w mask).bind fun mk =>
      some (liftOut Obj.mat (lib.textureFlattening s mk low_threshold high_threshold kernel_size))
  | .FastNlMeansDenoisingColoredMulti_Async src imgToDenoiseIndex temporalWindowSize =>
      (derefVecMat w src).bind fun v =>
      some (liftOut Obj.mat
        (lib.fastNlMeansDenoisingColoredMulti v imgToDenoiseIndex temporalWindowSize 3 3 7 21))
  | .FastNlMeansDenoisingColoredMultiWithParams_Async src imgToDenoiseIndex temporalWindowSize
      h hColor templateWindowSize searchWindowSize =>
      (derefVecMat w src).bind fun v =>
      some (liftOut Obj.mat
        (lib.fastNlMeansDenoisingColoredMulti v imgToDenoiseIndex temporalWindowSize
          h hColor templateWindowSize searchWindowSize))
  | .FastNlMeansDenoising_Async src =>
      (derefMat w src).bind fun s =>
      some (liftOut Obj.mat (lib.fastNlMeansDenoising s 3 7 21))
  | .FastNlMeansDenoisingWithParams_Async src h templateWindowSize searchWindowSize =>
      (derefMat w src).bind fun s =>
      some (liftOut Obj.mat (lib.fastNlMeansDenoising s h templateWindowSize searchWindowSize))
  | .FastNlMeansDenoisingColored_Async src =>
      (derefMat w src).bind fun s =>
      some (liftOut Obj.mat (lib.fastNlMeansDenoisingColored s 3 3 7 21))
  | .FastNlMeansDenoisingColoredWithParams_Async src h hColor
      templateWindowSize searchWindowSize =>
      (derefMat w src).bind fun s =>
      some (liftOut Obj.mat
        (lib.fastNlMeansDenoisingColored s h hColor templateWindowSize searchWindowSize))
  | .MergeMertens_Create_Async =>
      some (liftOut Obj.fuse (lib.createMergeMertens 1 1 0))
  | .MergeMertens_CreateWithParams_Async contrast_weight saturation_weight exposure_weight =>
      some (liftOut Obj.fuse
        (lib.createMergeMertens contrast_weight saturation_weight exposure_weight))
  | .MergeMertens_Process_Async b src =>
      (derefFuse w b).bind fun f =>
      (derefVecMat w src).bind fun v =>
      some (liftOut Obj.mat (lib.mergeMertensProcess f v))
  | .AlignMTB_Create_Async =>
      some (liftOut Obj.align (lib.createAlignMTB 6 4 true))
  | .AlignMTB_CreateWithParams_Async max_bits exclude_range cut =>
      some (liftOut Obj.align (lib.createAlignMTB max_bits exclude_range cut))
  | .AlignMTB_Process_Async b src =>
      (derefAlign w b).bind fun al =>
      (derefVecMat w src).bind fun v =>
      some (liftOut Obj.vecmat (lib.alignMTBProcess al v))
  | .DetailEnhance_Async src sigma_s sigma_r =>
      (derefMat w src).bind fun s =>
      some (liftOut Obj.mat (lib.detailEnhance s sigma_s sigma_r))
  | .EdgePreservingFilter_Async src filter sigma_s sigma_r =>
      (derefMat w src).bind fun s =>
      some (liftOut Obj.mat (lib.edgePreservingFilter s filter sigma_s sigma_r))
  | .PencilSketch_Async src dst1 dst2 sigma_s sigma_r shade_factor =>
      (derefMat w src).bind fun s =>
      (derefMat w dst1).bind fun d1 =>
      (derefMat w dst2).bind fun d2 =>
      some (pencilOut dst1 dst2 (lib.pencilSketch s d1 d2 sigma_s sigma_r shade_factor))
  | .Stylization_Async src sigma_s sigma_r =>
      (derefMat w src).bind fun s =>
      some (liftOut Obj.mat (lib.stylization s sigma_s sigma_r))
  | .PhotoInpaint_Async src mask inpaint_radius algorithm_type =>
      (derefMat w src).bind fun s =>
      (derefMat w mask).bind fun mk =>
      some (liftOut Obj.mat (lib.inpaint s mk inpaint_radius algorithm_type))

/-- Run the body of an entry point: interpret the call to an outcome and
execute it, yielding the final world and the exception state the envelope
will see. `none` means an input handle was invalid (undefined behaviour in
the C code, outside the model). -/
def bodyRun (lib : NativeLib) (c : Call) (cb1 : CB1) (cb2 : CB2) (w : World) :
    Option (World × Except CvExn Unit) :=
  (interp lib w c).map (execOutcome cb1 cb2 w)

/-! ## The status envelope -/

/-- The translation unit holding every catch site. -/
def catchFile : String := "photo_async.cpp"

/-- Modelled from the spec: the BEGIN_WRAP/END_WRAP envelope is declared in
core/types.h, which is not part of the sources at hand. Per the spec, the
body running to completion yields the null-Status success sentinel; a
condition raised by the native library yields a LibraryError Status carrying
the library message and the file/line marker of the catch site; an
unclassified condition yields an InternalError Status of a generic kind. -/
def wrapStatus (file : String) (line : Nat) : Except CvExn Unit → Status
  | Except.ok _ => Status.ok
  | Except.error (CvExn.libExn msg) => Status.libraryError msg file line
  | Except.error CvExn.otherExn => Status.internalError "Unknown error" file line

/-- Run an entry point to its returned Status and final world. -/
def runCall (lib : NativeLib) (c : Call) (cb1 : CB1) (cb2 : CB2) (w : World) :
    Option (World × Status) :=
  (bodyRun lib c cb1 cb2 w).map (fun p => (p.1, wrapStatus catchFile c.endLine p.2))

/-- Release a handle: the separately-specified destruction entry point, which
frees the native object at the address. -/
def releaseHandle (w : World) (a : Addr) : World :=
  { w with heap := w.heap.set a none }

/-- The exception component of a native routine result, forgetting the value. -/
def exnOf {α : Type} : Except CvExn α → Except CvExn Unit
  | .error e => Except.error e
  | .ok _ => Except.ok ()

/-- Written against the spec: §4.2 and §6 list, for each entry point, the one
native routine it must invoke, applied to the dereferenced handle arguments
with every scalar parameter forwarded unchanged in the documented order. This
definition records exactly that native invocation (keeping only whether it
raised) and is the comparison point for the no-pre-validation claim. -/
def nativeCallSpec (lib : NativeLib) (w : World) : Call → Option (Except CvExn Unit)
  | .ColorChange_Async src mask red_mul green_mul blue_mul =>
      (derefMat w src).bind fun s =>
      (derefMat w mask).bind fun mk =>
      some (exnOf (lib.colorChange s mk red_mul green_mul blue_mul))
  | .SeamlessClone_Async src dst mask px py flags =>
      (derefMat w src).bind fun s =>
      (derefMat w dst).bind fun d =>
      (derefMat w mask).bind fun mk =>
      some (exnOf (lib.seamlessClone s d mk px py flags))
  | .IlluminationChange_Async src mask alpha beta =>
      (derefMat w src).bind fun s =>
      (derefMat w mask).bind fun mk =>
      some (exnOf (lib.illuminationChange s mk alpha beta))
  | .TextureFlattening_Async src mask low_threshold high_threshold kernel_size =>
      (derefMat w src).bind fun s =>
      (derefMat w mask).bind fun mk =>
      some (exnOf (lib.textureFlattening s mk low_threshold high_threshold kernel_size))
  | .FastNlMeansDenoisingColoredMulti_Async src imgToDenoiseIndex temporalWindowSize =>
      (derefVecMat w src).bind fun v =>
      some (exnOf
        (lib.fastNlMeansDenoisingColoredMulti v imgToDenoiseIndex temporalWindowSize 3 3 7 21))
  | .FastNlMeansDenoisingColoredMultiWithParams_Async src imgToDenoiseIndex temporalWindowSize
      h hColor templateWindowSize searchWindowSize =>
      (derefVecMat w src).bind fun v =>
      some (exnOf
        (lib.fastNlMeansDenoisingColoredMulti v imgToDenoiseIndex temporalWindowSize
          h hColor templateWindowSize searchWindowSize))
  | .FastNlMeansDenoising_Async src =>
      (derefMat w src).bind fun s =>
      some (exnOf (lib.fastNlMeansDenoising s 3 7 21))
  | .FastNlMeansDenoisingWithParams_Async src h templateWindowSize searchWindowSize =>
      (derefMat w src).bind fun s =>
      some (exnOf (lib.fastNlMeansDenoising s h templateWindowSize searchWindowSize))
  | .FastNlMeansDenoisingColored_Async src =>
      (derefMat w src).bind fun s =>
      some (exnOf (lib.fastNlMeansDenoisingColored s 3 3 7 21))
  | .FastNlMeansDenoisingColoredWithParams_Async src h hColor
      templateWindowSize searchWindowSize =>
      (derefMat w src).bind fun s =>
      some (exnOf (lib.fastNlMeansDenoisingColored s h hColor templateWindowSize searchWindowSize))
  | .MergeMertens_Create_Async =>
      some (exnOf (lib.createMergeMertens 1 1 0))
  | .MergeMertens_CreateWithParams_Async contrast_weight saturation_weight exposure_weight =>
      some (exnOf (lib.createMergeMertens contrast_weight saturation_weight exposure_weight))
  | .MergeMertens_Process_Async b src =>
      (derefFuse w b).bind fun f =>
      (derefVecMat w src).bind fun v =>
      some (exnOf (lib.mergeMertensProcess f v))
  | .AlignMTB_Create_Async =>
      some (exnOf (lib.createAlignMTB 6 4 true))
  | .AlignMTB_CreateWithParams_Async max_bits exclude_range cut =>
      some (exnOf (lib.createAlignMTB max_bits exclude_range cut))
  | .AlignMTB_Process_Async b src =>
      (derefAlign w b).bind fun al =>
      (derefVecMat w src).bind fun v =>
      some (exnOf (lib.alignMTBProcess al v))
  | .DetailEnhance_Async src sigma_s sigma_r =>
      (derefMat w src).bind fun s =>
      some (exnOf (lib.detailEnhance s sigma_s sigma_r))
  | .EdgePreservingFilter_Async src filter sigma_s sigma_r =>
      (derefMat w src).bind fun s =>
      some (exnOf (lib.edgePreservingFilter s filter sigma_s sigma_r))
  | .PencilSketch_Async src dst1 dst2 sigma_s sigma_r shade_factor =>
      (derefMat w src).bind fun s =>
      (derefMat w dst1).bind fun d1 =>
      (derefMat w dst2).bind fun d2 =>
      some (exnOf (lib.pencilSketch s d1 d2 sigma_s sigma_r shade_factor))
  | .Stylization_Async src sigma_s sigma_r =>
      (derefMat w src).bind fun s =>
      some (exnOf (lib.stylization s sigma_s sigma_r))
  | .PhotoInpaint_Async src mask inpaint_radius algorithm_type =>
      (derefMat w src).bind fun s =>
      (derefMat w mask).bind fun mk =>
      some (exnOf (lib.inpaint s mk inpaint_radius algorithm_type))

/-! ## Concrete instances used to exercise the model -/

/-- A one-pixel matrix. -/
def m0 : MatData := { rows := 1, cols := 1, channels := 1, pixels := [0] }

/-- A native library in which every routine succeeds: the denoising and
filtering routines return `m0`, the creation routines return the requested
configuration, and alignment returns its input sequence. -/
def libStub : NativeLib where
  colorChange _ _ _ _ _ := Except.ok m0
  seamlessClone _ _ _ _ _ _ := Except.ok m0
  illuminationChange _ _ _ _ := Except.ok m0
  textureFlattening _ _ _ _ _ := Except.ok m0
  fastNlMeansDenoisingColoredMulti _ _ _ _ _ _ _ := Except.ok m0
  fastNlMeansDenoising _ _ _ _ := Except.ok m0
  fastNlMeansDenoisingColored _ _ _ _ _ := Except.ok m0
  createMergeMertens cw sw ew := Except.ok ⟨cw, sw, ew⟩
  mergeMertensProcess _ _ := Except.ok m0
  createAlignMTB mb er c := Except.ok ⟨mb, er, c⟩
  alignMTBProcess _ v := Except.ok v
  detailEnhance _ _ _ := Except.ok m0
  edgePreservingFilter _ _ _ _ := Except.ok m0
  pencilSketch _ _ _ _ _ _ := Except.ok (m0, m0)
  stylization _ _ _ := Except.ok m0
  inpaint _ _ _ _ := Except.ok m0

/-- Like `libStub` but colorChange raises a cv::Exception, as the native
library does on mismatched sizes. -/
def libStubFail : NativeLib :=
  { libStub with colorChange := fun _ _ _ _ _ => Except.error (CvExn.libExn "sizes mismatch") }

/-- A callback that returns normally on every handle. -/
def cbOk1 : CB1 := fun _ => Except.ok ()

/-- A two-argument callback that returns normally. -/
def cbOk2 : CB2 := fun _ _ => Except.ok ()

/-- A caller-supplied callback that itself raises. -/
def cbThrow : CB1 := fun _ => Except.error CvExn.otherExn

/-- A starting world holding two matrices at addresses 0 and 1. -/
def w0 : World := { heap := [some (Obj.mat m0), some (Obj.mat m0)], events := [] }

/-- A starting world for the process-call witnesses: a MergeMertens handle at
address 0 and a sequence handle at address 1. -/
def wProc : World :=
  { heap := [some (Obj.fuse ⟨1, 1, 0⟩), some (Obj.vecmat [m0])], events := [] }

/-! ## Basic lemmas about the embedding -/

theorem derefMat_eq_some {w : World} {a : Addr} {m : MatData} :
    derefMat w a = some m ↔ w.heap[a]? = some (some (Obj.mat m)) := by
  unfold derefMat
  split <;> simp_all

theorem derefVecMat_eq_some {w : World} {a : Addr} {v : List MatData} :
    derefVecMat w a = some v ↔ w.heap[a]? = some (some (Obj.vecmat v)) := by
  unfold derefVecMat
  split <;> simp_all

theorem derefFuse_eq_some {w : World} {a : Addr} {f : FuseData} :
    derefFuse w a = some f ↔ w.heap[a]? = some (some (Obj.fuse f)) := by
  unfold derefFuse
  split <;> simp_all

theorem derefAlign_eq_some {w : World} {a : Addr} {al : AlignData} :
    derefAlign w a = some al ↔ w.heap[a]? = some (some (Obj.align al)) := by
  unfold derefAlign
  split <;> simp_all

theorem liftOut_cases {α : Type} (f : α → Obj) (r : Except CvExn α) :
    (∃ e, liftOut f r = Outcome.fail e) ∨ (∃ x, liftOut f r = Outcome.out1 (f x)) := by
  cases r with
  | error e => exact Or.inl ⟨e, rfl⟩
  | ok x => exact Or.inr ⟨x, rfl⟩

/-- Characterization of a defined body: every handle argument is allocated,
and the outcome is a native failure, a single CB1 delivery for a
non-PencilSketch call, or the PencilSketch outcome whose scratch addresses
are the dst1/dst2 handle arguments, which hold matrices. -/
theorem interp_characterize {lib : NativeLib} {w : World} {c : Call} {out : Outcome}
    (h : interp lib w c = some out) :
    (∀ i ∈ c.inputs, ∃ o, w.heap[i]? = some (some o)) ∧
    ((∃ e, out = Outcome.fail e) ∨
     (∃ o, out = Outcome.out1 o ∧ c.invokesWithTwo = false) ∨
     (∃ d1 d2 m1 m2, out = Outcome.outPencil d1 d2 m1 m2 ∧ c.invokesWithTwo = true ∧
       d1 ∈ c.inputs ∧ d2 ∈ c.inputs ∧
       (∃ x, w.heap[d1]? = some (some (Obj.mat x))) ∧
       (∃ x, w.heap[d2]? = some (some (Obj.mat x))))) := by
  cases c with
  | ColorChange_Async src mask r g b =>
    simp only [interp, Option.bind_eq_some, Option.some.injEq] at h
    obtain ⟨s, hs, mk, hmk, rfl⟩ := h
    refine ⟨?_, ?_⟩
    · intro i hi
      simp only [Call.inputs, List.mem_cons, List.not_mem_nil, or_false] at hi
      rcases hi with rfl | rfl
      · exact ⟨_, derefMat_eq_some.mp hs⟩
      · exact ⟨_, derefMat_eq_some.mp hmk⟩
    · rcases liftOut_cases Obj.mat (lib.colorChange s mk r g b) with ⟨e, he⟩ | ⟨x, hx⟩
      · exact Or.inl ⟨e, he⟩
      · exact Or.inr (Or.inl ⟨_, hx, rfl⟩)
  | SeamlessClone_Async src dst mask px py flags =>
    simp only [interp, Option.bind_eq_some, Option.some.injEq] at h
    obtain ⟨s, hs, d, hd, mk, hmk, rfl⟩ := h
    refine ⟨?_, ?_⟩
    · intro i hi
      simp only [Call.inputs, List.mem_cons, List.not_mem_nil, or_false] at hi
      rcases hi with rfl | rfl | rfl
      · exact ⟨_, derefMat_eq_some.mp hs⟩
      · exact ⟨_, derefMat_eq_some.mp hd⟩
      · exact ⟨_, derefMat_eq_some.mp hmk⟩
    · rcases liftOut_cases Obj.mat (lib.seamlessClone s d mk px py flags) with ⟨e, he⟩ | ⟨x, hx⟩
      · exact Or.inl ⟨e, he⟩
      · exact Or.inr (Or.inl ⟨_, hx, rfl⟩)
  | IlluminationChange_Async src mask alpha beta =>
    simp only [interp, Option.bind_eq_some, Option.some.injEq] at h
    obtain ⟨s, hs, mk, hmk, rfl⟩ := h
    refine ⟨?_, ?_⟩
    · intro i hi
      simp only [Call.inputs, List.mem_cons, List.not_mem_nil, or_false] at hi
      rcases hi with rfl | rfl
      · exact ⟨_, derefMat_eq_some.mp hs⟩
      · exact ⟨_, derefMat_eq_some.mp hmk⟩
    · rcases liftOut_cases Obj.mat (lib.illuminationChange s mk alpha beta) with ⟨e, he⟩ | ⟨x, hx⟩
      · exact Or.inl ⟨e, he⟩
      · exact Or.inr (Or.inl ⟨_, hx, rfl⟩)
  | TextureFlattening_Async src mask lo hi ks =>
    simp only [interp, Option.bind_eq_some, Option.some.injEq] at h
    obtain ⟨s, hs, mk, hmk, rfl⟩ := h
    refine ⟨?_, ?_⟩
    · intro i hi
      simp only [Call.inputs, List.mem_cons, List.not_mem_nil, or_false] at hi
      rcases hi with rfl | rfl
      · exact ⟨_, derefMat_eq_some.mp hs⟩
      · exact ⟨_, derefMat_eq_some.mp hmk⟩
    · rcases liftOut_cases Obj.mat (lib.textureFlattening s mk lo hi ks) with ⟨e, he⟩ | ⟨x, hx⟩
      · exact Or.inl ⟨e, he⟩
      · exact Or.inr (Or.inl ⟨_, hx, rfl⟩)
  | FastNlMeansDenoisingColoredMulti_Async src idx tws =>
    simp only [interp, Option.bind_eq_some, Option.some.injEq] at h
    obtain ⟨v, hv, rfl⟩ := h
    refine ⟨?_, ?_⟩
    · intro i hi
      simp only [Call.inputs, List.mem_cons, List.not_mem_nil, or_false] at hi
      rcases hi with rfl
      exact ⟨_, derefVecMat_eq_some.mp hv⟩
    · rcases liftOut_cases Obj.mat
        (lib.fastNlMeansDenoisingColoredMulti v idx tws 3 3 7 21) with ⟨e, he⟩ | ⟨x, hx⟩
      · exact Or.inl ⟨e, he⟩
      · exact Or.inr (Or.inl ⟨_, hx, rfl⟩)
  | FastNlMeansDenoisingColoredMultiWithParams_Async src idx tws h2 hc tw sw =>
    simp only [interp, Option.bind_eq_some, Option.some.injEq] at h
    obtain ⟨v, hv, rfl⟩ := h
    refine ⟨?_, ?_⟩
    · intro i hi
      simp only [Call.inputs, List.mem_cons, List.not_mem_nil, or_false] at hi
      rcases hi with rfl
      exact ⟨_, derefVecMat_eq_some.mp hv⟩
    · rcases liftOut_cases Obj.mat
        (lib.fastNlMeansDenoisingColoredMulti v idx tws h2 hc tw sw) with ⟨e, he⟩ | ⟨x, hx⟩
      · exact Or.inl ⟨e, he⟩
      · exact Or.inr (Or.inl ⟨_, hx, rfl⟩)
  | FastNlMeansDenoising_Async src =>
    simp only [interp, Option.bind_eq_some, Option.some.injEq] at h
    obtain ⟨s, hs, rfl⟩ := h
    refine ⟨?_, ?_⟩
    · intro i hi
      simp only [Call.inputs, List.mem_cons, List.not_mem_nil, or_false] at hi
      rcases hi with rfl
      exact ⟨_, derefMat_eq_some.mp hs⟩
    · rcases liftOut_cases Obj.mat (lib.fastNlMeansDenoising s 3 7 21) with ⟨e, he⟩ | ⟨x, hx⟩
      · exact Or.inl ⟨e, he⟩
      · exact Or.inr (Or.inl ⟨_, hx, rfl⟩)
  | FastNlMeansDenoisingWithParams_Async src h2 tw sw =>
    simp only [interp, Option.bind_eq_some, Option.some.injEq] at h
    obtain ⟨s, hs, rfl⟩ := h
    refine ⟨?_, ?_⟩
    · intro i hi
      simp only [Call.inputs, List.mem_cons, List.not_mem_nil, or_false] at hi
      rcases hi with rfl
      exact ⟨_, derefMat_eq_some.mp hs⟩
    · rcases liftOut_cases Obj.mat (lib.fastNlMeansDenoising s h2 tw sw) with ⟨e, he⟩ | ⟨x, hx⟩
      · exact Or.inl ⟨e, he⟩
      · exact Or.inr (Or.inl ⟨_, hx, rfl⟩)
  | FastNlMeansDenoisingColored_Async src =>
    simp only [interp, Option.bind_eq_some, Option.some.injEq] at h
    obtain ⟨s, hs, rfl⟩ := h
    refine ⟨?_, ?_⟩
    · intro i hi
      simp only [Call.inputs, List.mem_cons, List.not_mem_nil, or_false] at hi
      rcases hi with rfl
      exact ⟨_, derefMat_eq_some.mp hs⟩
    · rcases liftOut_cases Obj.mat
        (lib.fastNlMeansDenoisingColored s 3 3 7 21) with ⟨e, he⟩ | ⟨x, hx⟩
      · exact Or.inl ⟨e, he⟩
      · exact Or.inr (Or.inl ⟨_, hx, rfl⟩)
  | FastNlMeansDenoisingColoredWithParams_Async src h2 hc tw sw =>
    simp only [interp, Option.bind_eq_some, Option.some.injEq] at h
    obtain ⟨s, hs, rfl⟩ := h
    refine ⟨?_, ?_⟩
    · intro i hi
      simp only [Call.inputs, List.mem_cons, List.not_mem_nil, or_false] at hi
      rcases hi with rfl
      exact ⟨_, derefMat_eq_some.mp hs⟩
    · rcases liftOut_cases Obj.mat
        (lib.fastNlMeansDenoisingColored s h2 hc tw sw) with ⟨e, he⟩ | ⟨x, hx⟩
      · exact Or.inl ⟨e, he⟩
      · exact Or.inr (Or.inl ⟨_, hx, rfl⟩)
  | MergeMertens_Create_Async =>
    simp only [interp, Option.some.injEq] at h
    subst h
    refine ⟨by simp [Call.inputs], ?_⟩
    rcases liftOut_cases Obj.fuse (lib.createMergeMertens 1 1 0) with ⟨e, he⟩ | ⟨x, hx⟩
    · exact Or.inl ⟨e, he⟩
    · exact Or.inr (Or.inl ⟨_, hx, rfl⟩)
  | MergeMertens_CreateWithParams_Async cw sw ew =>
    simp only [interp, Option.some.injEq] at h
    subst h
    refine ⟨by simp [Call.inputs], ?_⟩
    rcases liftOut_cases Obj.fuse (lib.createMergeMertens cw sw ew) with ⟨e, he⟩ | ⟨x, hx⟩
    · exact Or.inl ⟨e, he⟩
    · exact Or.inr (Or.inl ⟨_, hx, rfl⟩)
  | MergeMertens_Process_Async b src =>
    simp only [interp, Option.bind_eq_some, Option.some.injEq] at h
    obtain ⟨f, hf, v, hv, rfl⟩ := h
    refine ⟨?_, ?_⟩
    · intro i hi
      simp only [Call.inputs, List.mem_cons, List.not_mem_nil, or_false] at hi
      rcases hi with rfl | rfl
      · exact ⟨_, derefFuse_eq_some.mp hf⟩
      · exact ⟨_, derefVecMat_eq_some.mp hv⟩
    · rcases liftOut_cases Obj.mat (lib.mergeMertensProcess f v) with ⟨e, he⟩ | ⟨x, hx⟩
      · exact Or.inl ⟨e, he⟩
      · exact Or.inr (Or.inl ⟨_, hx, rfl⟩)
  | AlignMTB_Create_Async =>
    simp only [interp, Option.some.injEq] at h
    subst h
    refine ⟨by simp [Call.inputs], ?_⟩
    rcases liftOut_cases Obj.align (lib.createAlignMTB 6 4 true) with ⟨e, he⟩ | ⟨x, hx⟩
    · exact Or.inl ⟨e, he⟩
    · exact Or.inr (Or.inl ⟨_, hx, rfl⟩)
  | AlignMTB_CreateWithParams_Async mb er cut =>
    simp only [interp, Option.some.injEq] at h
    subst h
    refine ⟨by simp [Call.inputs], ?_⟩
    rcases liftOut_cases Obj.align (lib.createAlignMTB mb er cut) with ⟨e, he⟩ | ⟨x, hx⟩
    · exact Or.inl ⟨e, he⟩
    · exact Or.inr (Or.inl ⟨_, hx, rfl⟩)
  | AlignMTB_Process_Async b src =>
    simp only [interp, Option.bind_eq_some, Option.some.injEq] at h
    obtain ⟨al, hal, v, hv, rfl⟩ := h
    refine ⟨?_, ?_⟩
    · intro i hi
      simp only [Call.inputs, List.mem_cons, List.not_mem_nil, or_false] at hi
      rcases hi with rfl | rfl
      · exact ⟨_, derefAlign_eq_some.mp hal⟩
      · exact ⟨_, derefVecMat_eq_some.mp hv⟩
    · rcases liftOut_cases Obj.vecmat (lib.alignMTBProcess al v) with ⟨e, he⟩ | ⟨x, hx⟩
      · exact Or.inl ⟨e, he⟩
      · exact Or.inr (Or.inl ⟨_, hx, rfl⟩)
  | DetailEnhance_Async src ss sr =>
    simp only [interp, Option.bind_eq_some, Option.some.injEq] at h
    obtain ⟨s, hs, rfl⟩ := h
    refine ⟨?_, ?_⟩
    · intro i hi
      simp only [Call.inputs, List.mem_cons, List.not_mem_nil, or_false] at hi
      rcases hi with rfl
      exact ⟨_, derefMat_eq_some.mp hs⟩
    · rcases liftOut_cases Obj.mat (lib.detailEnhance s ss sr) with ⟨e, he⟩ | ⟨x, hx⟩
      · exact Or.inl ⟨e, he⟩
      · exact Or.inr (Or.inl ⟨_, hx, rfl⟩)
  | EdgePreservingFilter_Async src fl ss sr =>
    simp only [interp, Option.bind_eq_some, Option.some.injEq] at h
    obtain ⟨s, hs, rfl⟩ := h
    refine ⟨?_, ?_⟩
    · intro i hi
      simp only [Call.inputs, List.mem_cons, List.not_mem_nil, or_false] at hi
      rcases hi with rfl
      exact ⟨_, derefMat_eq_some.mp hs⟩
    · rcases liftOut_cases Obj.mat (lib.edgePreservingFilter s fl ss sr) with ⟨e, he⟩ | ⟨x, hx⟩
      · exact Or.inl ⟨e, he⟩
      · exact Or.inr (Or.inl ⟨_, hx, rfl⟩)
  | PencilSketch_Async src dst1 dst2 ss sr sf =>
    simp only [interp, Option.bind_eq_some, Option.some.injEq] at h
    obtain ⟨s, hs, d1, hd1, d2, hd2, rfl⟩ := h
    refine ⟨?_, ?_⟩
    · intro i hi
      simp only [Call.inputs, List.mem_cons, List.not_mem_nil, or_false] at hi
      rcases hi with rfl | rfl | rfl
      · exact ⟨_, derefMat_eq_some.mp hs⟩
      · exact ⟨_, derefMat_eq_some.mp hd1⟩
      · exact ⟨_, derefMat_eq_some.mp hd2⟩
    · rcases hp : lib.pencilSketch s d1 d2 ss sr sf with e | ⟨m1, m2⟩
      · exact Or.inl ⟨e, by simp [pencilOut, hp]⟩
      · refine Or.inr (Or.inr ⟨dst1, dst2, m1, m2, by simp [pencilOut, hp], rfl, ?_, ?_, ?_, ?_⟩)
        · simp [Call.inputs]
        · simp [Call.inputs]
        · exact ⟨_, derefMat_eq_some.mp hd1⟩
        · exact ⟨_, derefMat_eq_some.mp hd2⟩
  | Stylization_Async src ss sr =>
    simp only [interp, Option.bind_eq_some, Option.some.injEq] at h
    obtain ⟨s, hs, rfl⟩ := h
    refine ⟨?_, ?_⟩
    · intro i hi
      simp only [Call.inputs, List.mem_cons, List.not_mem_nil, or_false] at hi
      rcases hi with rfl
      exact ⟨_, derefMat_eq_some.mp hs⟩
    · rcases liftOut_cases Obj.mat (lib.stylization s ss sr) with ⟨e, he⟩ | ⟨x, hx⟩
      · exact Or.inl ⟨e, he⟩
      · exact Or.inr (Or.inl ⟨_, hx, rfl⟩)
  | PhotoInpaint_Async src mask ir at2 =>
    simp only [interp, Option.bind_eq_some, Option.some.injEq] at h
    obtain ⟨s, hs, mk, hmk, rfl⟩ := h
    refine ⟨?_, ?_⟩
    · intro i hi
      simp only [Call.inputs, List.mem_cons, List.not_mem_nil, or_false] at hi
      rcases hi with rfl | rfl
      · exact ⟨_, derefMat_eq_some.mp hs⟩
      · exact ⟨_, derefMat_eq_some.mp hmk⟩
    · rcases liftOut_cases Obj.mat (lib.inpaint s mk ir at2) with ⟨e, he⟩ | ⟨x, hx⟩
      · exact Or.inl ⟨e, he⟩
      · exact Or.inr (Or.inl ⟨_, hx, rfl⟩)

theorem wrapStatus_error_ne_ok (f : String) (l : Nat) (e : CvExn) :
    wrapStatus f l (Except.error e) ≠ Status.ok := by
  cases e <;> simp [wrapStatus]

/-! ## Claim theorems -/

/-- Claim C1 as stated is refuted by the code: with a caller-supplied callback
that itself raises, ColorChange_Async returns a non-OK Status although the
callback was invoked exactly once during the call (one recorded event) and an
output handle was allocated (the heap grew from two to three objects). -/
theorem C1_counterexample :
    runCall libStub (Call.ColorChange_Async 0 1 1 1 1) cbThrow cbOk2 w0 =
      some ({ heap := [some (Obj.mat m0), some (Obj.mat m0), some (Obj.mat m0)],
              events := [Event.cb1 2] },
            Status.internalError "Unknown error" "photo_async.cpp" 11) ∧
    Status.internalError "Unknown error" "photo_async.cpp" 11 ≠ Status.ok ∧
    w0.events = [] ∧ w0.heap.length = 2 := by
  refine ⟨rfl, by simp, rfl, rfl⟩

/-- Claim C1 amended: provided the caller-supplied callback returns normally,
every entry point returns the OK Status iff the callback was invoked exactly
once during that call, and on every failure path the callback is invoked zero
times and no output handles are allocated (the world is returned unchanged). -/
theorem C1_ok_iff_callback_once (lib : NativeLib) (c : Call) (cb1 : CB1) (cb2 : CB2)
    (w w2 : World) (st : Status)
    (hcb1 : ∀ a, cb1 a = Except.ok ())
    (hcb2 : ∀ a1 a2, cb2 a1 a2 = Except.ok ())
    (h : runCall lib c cb1 cb2 w = some (w2, st)) :
    (st = Status.ok ↔ w2.events.length = w.events.length + 1) ∧
    (st ≠ Status.ok → w2 = w) := by
  unfold runCall bodyRun at h
  cases hint : interp lib w c with
  | none => rw [hint] at h; exact absurd h (by simp)
  | some out =>
    rw [hint] at h
    simp only [Option.map_some', Option.some.injEq, Prod.ext_iff] at h
    obtain ⟨hw, hst⟩ := h
    cases out with
    | fail e =>
      simp only [execOutcome] at hw hst
      subst hw
      subst hst
      refine ⟨⟨fun hh => absurd hh (wrapStatus_error_ne_ok _ _ e), fun hh => ?_⟩, fun _ => rfl⟩
      exact absurd hh (by omega)
    | out1 o =>
      simp only [execOutcome, deliver1] at hw hst
      rw [hcb1] at hst
      subst hw
      subst hst
      refine ⟨⟨fun _ => ?_, fun _ => rfl⟩, fun hh => absurd rfl hh⟩
      simp [wrapStatus]
    | outPencil d1 d2 m1 m2 =>
      simp only [execOutcome, deliver2, writeHeap] at hw hst
      rw [hcb2] at hst
      subst hw
      subst hst
      refine ⟨⟨fun _ => ?_, fun _ => rfl⟩, fun hh => absurd rfl hh⟩
      simp [wrapStatus]

/-- Witness for the amended C1 at a concrete successful call. -/
theorem C1_ok_iff_callback_once_witness :
    (Status.ok = Status.ok ↔
      ({ heap := [some (Obj.mat m0), some (Obj.mat m0), some (Obj.mat m0)],
         events := [Event.cb1 2] } : World).events.length = w0.events.length + 1) ∧
    (Status.ok ≠ Status.ok →
      ({ heap := [some (Obj.mat m0), some (Obj.mat m0), some (Obj.mat m0)],
         events := [Event.cb1 2] } : World) = w0) :=
  C1_ok_iff_callback_once libStub (Call.ColorChange_Async 0 1 1 1 1) cbOk1 cbOk2 w0
    { heap := [some (Obj.mat m0), some (Obj.mat m0), some (Obj.mat m0)],
      events := [Event.cb1 2] }
    Status.ok (fun _ => rfl) (fun _ _ => rfl) rfl

/-- Claim C2: every entry point signals success by returning the null-Status
sentinel; when the native library raised, the returned Status is a
LibraryError carrying the library message and the file/line marker of the
catch site; an unclassified condition yields an InternalError Status of a
generic kind. -/
theorem C2_status_envelope (lib : NativeLib) (c : Call) (cb1 : CB1) (cb2 : CB2)
    (w w2 : World) (r : Except CvExn Unit)
    (h : bodyRun lib c cb1 cb2 w = some (w2, r)) :
    runCall lib c cb1 cb2 w = some (w2, wrapStatus catchFile c.endLine r) ∧
    (r = Except.ok () → wrapStatus catchFile c.endLine r = Status.ok) ∧
    (∀ msg, r = Except.error (CvExn.libExn msg) →
      wrapStatus catchFile c.endLine r = Status.libraryError msg catchFile c.endLine) ∧
    (r = Except.error CvExn.otherExn →
      wrapStatus catchFile c.endLine r =
        Status.internalError "Unknown error" catchFile c.endLine) := by
  refine ⟨?_, ?_, ?_, ?_⟩
  · unfold runCall
    rw [h]
    rfl
  · rintro rfl; rfl
  · rintro msg rfl; rfl
  · rintro rfl; rfl

/-- Witness for C2 at a concrete successful call. -/
theorem C2_status_envelope_witness :
    runCall libStub (Call.ColorChange_Async 0 1 1 1 1) cbOk1 cbOk2 w0 =
      some ({ heap := [some (Obj.mat m0), some (Obj.mat m0), some (Obj.mat m0)],
              events := [Event.cb1 2] },
            wrapStatus catchFile (Call.ColorChange_Async 0 1 1 1 1).endLine (Except.ok ())) ∧
    ((Except.ok () : Except CvExn Unit) = Except.ok () →
      wrapStatus catchFile (Call.ColorChange_Async 0 1 1 1 1).endLine (Except.ok ()) =
        Status.ok) ∧
    (∀ msg, (Except.ok () : Except CvExn Unit) = Except.error (CvExn.libExn msg) →
      wrapStatus catchFile (Call.ColorChange_Async 0 1 1 1 1).endLine (Except.ok ()) =
        Status.libraryError msg catchFile (Call.ColorChange_Async 0 1 1 1 1).endLine) ∧
    ((Except.ok () : Except CvExn Unit) = Except.error CvExn.otherExn →
      wrapStatus catchFile (Call.ColorChange_Async 0 1 1 1 1).endLine (Except.ok ()) =
        Status.internalError "Unknown error" catchFile
          (Call.ColorChange_Async 0 1 1 1 1).endLine) :=
  C2_status_envelope libStub (Call.ColorChange_Async 0 1 1 1 1) cbOk1 cbOk2 w0
    { heap := [some (Obj.mat m0), some (Obj.mat m0), some (Obj.mat m0)],
      events := [Event.cb1 2] }
    (Except.ok ()) rfl

/-- Claim C10: the callback invocation sits inside the same exception-trapping
envelope that produces the returned Status: if the caller-supplied callback
raises after being invoked (exactly once, as the single appended event), the
entry point still returns, with the non-OK Status wrapping that condition. -/
theorem C10_callback_raise_caught (lib : NativeLib) (c : Call) (cb1 : CB1) (cb2 : CB2)
    (w w2 : World) (st : Status) (e : CvExn)
    (h : runCall lib c cb1 cb2 w = some (w2, st)) :
    (∀ a, w2.events = w.events ++ [Event.cb1 a] → cb1 a = Except.error e →
      st = wrapStatus catchFile c.endLine (Except.error e) ∧ st ≠ Status.ok) ∧
    (∀ a1 a2, w2.events = w.events ++ [Event.cb2 a1 a2] → cb2 a1 a2 = Except.error e →
      st = wrapStatus catchFile c.endLine (Except.error e) ∧ st ≠ Status.ok) := by
  unfold runCall bodyRun at h
  cases hint : interp lib w c with
  | none => rw [hint] at h; exact absurd h (by simp)
  | some out =>
    rw [hint] at h
    simp only [Option.map_some', Option.some.injEq, Prod.ext_iff] at h
    obtain ⟨hw, hst⟩ := h
    cases out with
    | fail e2 =>
      simp only [execOutcome] at hw hst
      subst hw
      constructor
      · intro a hev _
        exact absurd hev (by simp)
      · intro a1 a2 hev _
        exact absurd hev (by simp)
    | out1 o =>
      simp only [execOutcome, deliver1] at hw hst
      subst hw
      constructor
      · intro a hev hcb
        have ha := List.append_cancel_left hev
        simp only [List.cons.injEq, Event.cb1.injEq, and_true] at ha
        rw [← ha] at hcb
        rw [hcb] at hst
        exact ⟨hst.symm, hst ▸ wrapStatus_error_ne_ok _ _ e⟩
      · intro a1 a2 hev _
        have ha := List.append_cancel_left hev
        exact absurd ha (by simp)
    | outPencil d1 d2 m1 m2 =>
      simp only [execOutcome, deliver2, writeHeap] at hw hst
      subst hw
      constructor
      · intro a hev _
        have ha := List.append_cancel_left hev
        exact absurd ha (by simp)
      · intro a1 a2 hev hcb
        have ha := List.append_cancel_left hev
        simp only [List.cons.injEq, Event.cb2.injEq, and_true] at ha
        rw [← ha.1, ← ha.2] at hcb
        rw [hcb] at hst
        exact ⟨hst.symm, hst ▸ wrapStatus_error_ne_ok _ _ e⟩

theorem getElem?_some_lt {α : Type} {l : List α} {i : Nat} {x : α}
    (h : l[i]? = some x) : i < l.length := by
  by_contra hge
  rw [List.getElem?_eq_none (by omega)] at h
  exact Option.noConfusion h

theorem getElem?_append_left {α : Type} {l1 l2 : List α} {i : Nat} (h : i < l1.length) :
    (l1 ++ l2)[i]? = l1[i]? := by
  rw [List.getElem?_append]
  exact if_pos h

/-- Claim C3: every output handle delivered by a callback is freshly
allocated: its address lies beyond the pre-call heap, is distinct from every
borrowed input address of the same call, and releasing it leaves the heap
entry of every input unchanged. -/
theorem C3_output_independence (lib : NativeLib) (c : Call) (cb1 : CB1) (cb2 : CB2)
    (w w2 : World) (st : Status)
    (h : runCall lib c cb1 cb2 w = some (w2, st)) :
    ∀ ev ∈ w2.events.drop w.events.length, ∀ a ∈ ev.addrs,
      w.heap.length ≤ a ∧ ∀ i ∈ c.inputs, a ≠ i ∧
        (releaseHandle w2 a).heap[i]? = w2.heap[i]? := by
  unfold runCall bodyRun at h
  cases hint : interp lib w c with
  | none => rw [hint] at h; exact absurd h (by simp)
  | some out =>
    rw [hint] at h
    simp only [Option.map_some', Option.some.injEq, Prod.ext_iff] at h
    obtain ⟨hw, hst⟩ := h
    obtain ⟨hins, hout⟩ := interp_characterize hint
    rcases hout with ⟨e, rfl⟩ | ⟨o, rfl, hcb⟩ | ⟨d1, d2, m1, m2, rfl, hcb, hd1in, hd2in, hx1, hx2⟩
    · simp only [execOutcome] at hw
      subst hw
      intro ev hev
      rw [List.drop_length] at hev
      exact absurd hev (List.not_mem_nil ev)
    · simp only [execOutcome, deliver1] at hw
      subst hw
      intro ev hev a ha
      simp only [List.drop_left, List.mem_singleton] at hev
      subst hev
      simp only [Event.addrs, List.mem_singleton] at ha
      subst ha
      refine ⟨le_refl _, fun i hi => ?_⟩
      obtain ⟨oi, hoi⟩ := hins i hi
      have hilt : i < w.heap.length := getElem?_some_lt hoi
      refine ⟨ne_of_gt hilt, ?_⟩
      simp only [releaseHandle, List.getElem?_set]
      rw [if_neg (ne_of_gt hilt)]
    · simp only [execOutcome, deliver2, writeHeap, List.length_set] at hw
      subst hw
      intro ev hev a ha
      simp only [List.drop_left, List.mem_singleton] at hev
      subst hev
      simp only [Event.addrs, List.mem_cons, List.mem_singleton, List.not_mem_nil,
        or_false] at ha
      rcases ha with rfl | rfl
      · refine ⟨le_refl _, fun i hi => ?_⟩
        obtain ⟨oi, hoi⟩ := hins i hi
        have hilt : i < w.heap.length := getElem?_some_lt hoi
        refine ⟨ne_of_gt hilt, ?_⟩
        simp only [releaseHandle, List.getElem?_set]
        rw [if_neg (ne_of_gt hilt)]
      · refine ⟨Nat.le_succ _, fun i hi => ?_⟩
        obtain ⟨oi, hoi⟩ := hins i hi
        have hilt : i < w.heap.length := getElem?_some_lt hoi
        refine ⟨ne_of_gt (Nat.lt_succ_of_lt hilt), ?_⟩
        simp only [releaseHandle, List.getElem?_set]
        rw [if_neg (ne_of_gt (Nat.lt_succ_of_lt hilt))]

/-- Witness for C3 at a concrete successful call: the delivered handle 2 is
fresh and releasing it leaves input handle 0 untouched. -/
theorem C3_output_independence_witness :
    w0.heap.length ≤ 2 ∧
    (2 ≠ 0 ∧
      (releaseHandle
        { heap := [some (Obj.mat m0), some (Obj.mat m0), some (Obj.mat m0)],
          events := [Event.cb1 2] } 2).heap[0]? =
      ({ heap := [some (Obj.mat m0), some (Obj.mat m0), some (Obj.mat m0)],
         events := [Event.cb1 2] } : World).heap[0]?) := by
  have h := C3_output_independence libStub (Call.ColorChange_Async 0 1 1 1 1) cbOk1 cbOk2 w0
    { heap := [some (Obj.mat m0), some (Obj.mat m0), some (Obj.mat m0)],
      events := [Event.cb1 2] }
    Status.ok rfl (Event.cb1 2) (by simp [w0]) 2 (by simp [Event.addrs])
  exact ⟨h.1, h.2 0 (by simp [Call.inputs])⟩

/-- Claim C4 names a bug in the code: the spec requires PencilSketch to
deliver its two outputs through the two-argument callback type CB2, and the
PencilSketch_Async body indeed invokes its callback with two freshly
allocated image handles (photo_async.cpp:156, the single two-argument
invocation of the shim, after which no other entry point delivers more than
one handle) — but the function DECLARES that callback parameter with the
one-handle type CvCallback_1 (photo_async.cpp:153), like every other entry
point, contradicting the claimed CB2 type. Evaluated at the failing input:
the declared callback arity is 1 while the call delivers a two-address
event. -/
theorem C4_callback_type_bug :
    Call.declaredArity (Call.PencilSketch_Async 0 0 1 60 1 1) = 1 ∧
    Call.invokesWithTwo (Call.PencilSketch_Async 0 0 1 60 1 1) = true ∧
    runCall libStub (Call.PencilSketch_Async 0 0 1 60 1 1) cbOk1 cbOk2 w0 =
      some ({ heap := [some (Obj.mat m0), some (Obj.mat m0), some (Obj.mat m0),
                       some (Obj.mat m0)],
              events := [Event.cb2 2 3] }, Status.ok) ∧
    (Event.cb2 2 3).addrs.length = 2 ∧
    (Event.cb2 2 3).addrs.length ≠ Call.declaredArity (Call.PencilSketch_Async 0 0 1 60 1 1) := by
  exact ⟨rfl, rfl, rfl, rfl, by simp [Event.addrs, Call.declaredArity]⟩

theorem isOk_wrapStatus (f1 f2 : String) (l1 l2 : Nat) (r : Except CvExn Unit) :
    (wrapStatus f1 l1 r).isOk = (wrapStatus f2 l2 r).isOk := by
  cases r with
  | error e => cases e <;> rfl
  | ok u => rfl

/-- Claim C5: each parameter-free entry point runs the very same body as its
WithParams companion applied at the native library documented default
parameter values, so on the same input it performs the same allocations and
the same callback delivery with bit-identical outputs; in particular
FastNlMeansDenoising src equals FastNlMeansDenoisingWithParams src 3 7 21,
and the two returned Statuses agree on success. -/
theorem C5_default_params (lib : NativeLib) (cb1 : CB1) (cb2 : CB2) (w : World) :
    (∀ src, bodyRun lib (Call.FastNlMeansDenoising_Async src) cb1 cb2 w =
      bodyRun lib (Call.FastNlMeansDenoisingWithParams_Async src 3 7 21) cb1 cb2 w) ∧
    (∀ src, bodyRun lib (Call.FastNlMeansDenoisingColored_Async src) cb1 cb2 w =
      bodyRun lib (Call.FastNlMeansDenoisingColoredWithParams_Async src 3 3 7 21) cb1 cb2 w) ∧
    (∀ src idx tws,
      bodyRun lib (Call.FastNlMeansDenoisingColoredMulti_Async src idx tws) cb1 cb2 w =
      bodyRun lib (Call.FastNlMeansDenoisingColoredMultiWithParams_Async
        src idx tws 3 3 7 21) cb1 cb2 w) ∧
    (bodyRun lib Call.MergeMertens_Create_Async cb1 cb2 w =
      bodyRun lib (Call.MergeMertens_CreateWithParams_Async 1 1 0) cb1 cb2 w) ∧
    (bodyRun lib Call.AlignMTB_Create_Async cb1 cb2 w =
      bodyRun lib (Call.AlignMTB_CreateWithParams_Async 6 4 true) cb1 cb2 w) ∧
    (∀ src w2 st,
      runCall lib (Call.FastNlMeansDenoising_Async src) cb1 cb2 w = some (w2, st) →
      ∃ st2, runCall lib (Call.FastNlMeansDenoisingWithParams_Async src 3 7 21) cb1 cb2 w =
        some (w2, st2) ∧ st.isOk = st2.isOk) := by
  refine ⟨fun _ => rfl, fun _ => rfl, fun _ _ _ => rfl, rfl, rfl, ?_⟩
  intro src w2 st hr
  unfold runCall at hr
  cases hb : bodyRun lib (Call.FastNlMeansDenoising_Async src) cb1 cb2 w with
  | none => rw [hb] at hr; exact absurd hr (by simp)
  | some p =>
    rw [hb] at hr
    simp only [Option.map_some', Option.some.injEq, Prod.ext_iff] at hr
    obtain ⟨h1, h2⟩ := hr
    refine ⟨wrapStatus catchFile
      (Call.FastNlMeansDenoisingWithParams_Async src 3 7 21).endLine p.2, ?_, ?_⟩
    · unfold runCall
      rw [show bodyRun lib (Call.FastNlMeansDenoisingWithParams_Async src 3 7 21) cb1 cb2 w
          = bodyRun lib (Call.FastNlMeansDenoising_Async src) cb1 cb2 w from rfl, hb]
      simp only [Option.map_some', Option.some.injEq, Prod.ext_iff]
      exact ⟨h1, trivial⟩
    · rw [← h2]
      exact isOk_wrapStatus _ _ _ _ p.2

/-- Witness for C5 at a concrete successful denoising call. -/
theorem C5_default_params_witness :
    ∃ st2, runCall libStub (Call.FastNlMeansDenoisingWithParams_Async 0 3 7 21)
        cbOk1 cbOk2 w0 =
      some ({ heap := [some (Obj.mat m0), some (Obj.mat m0), some (Obj.mat m0)],
              events := [Event.cb1 2] }, st2) ∧
      Status.ok.isOk = st2.isOk :=
  (C5_default_params libStub cbOk1 cbOk2 w0).2.2.2.2.2 0
    { heap := [some (Obj.mat m0), some (Obj.mat m0), some (Obj.mat m0)],
      events := [Event.cb1 2] }
    Status.ok rfl

/-- Claim C6: a process call neither depends on nor mutates any state of the
algorithm handle that affects later results: a successful
MergeMertens_Process_Async call leaves the algorithm and sequence handles
untouched, and invoking it again on the same handles delivers a bit-identical
output matrix; an AlignMTB_Process_Async call repeated on the same handles
delivers a bit-identical output sequence (so its matrices are pairwise
bit-identical). -/
theorem C6_process_repeatable (lib : NativeLib) (cb1 : CB1) (cb2 : CB2) (w : World) :
    (∀ b src w1 st1,
      runCall lib (Call.MergeMertens_Process_Async b src) cb1 cb2 w = some (w1, st1) →
      st1 = Status.ok →
      ∃ m, w1.events = w.events ++ [Event.cb1 w.heap.length] ∧
        w1.heap[w.heap.length]? = some (some (Obj.mat m)) ∧
        ∃ w2 st2,
          runCall lib (Call.MergeMertens_Process_Async b src) cb1 cb2 w1 = some (w2, st2) ∧
          w2.events = w1.events ++ [Event.cb1 w1.heap.length] ∧
          w2.heap[w1.heap.length]? = some (some (Obj.mat m))) ∧
    (∀ b src w1 st1,
      runCall lib (Call.AlignMTB_Process_Async b src) cb1 cb2 w = some (w1, st1) →
      st1 = Status.ok →
      ∃ v, w1.events = w.events ++ [Event.cb1 w.heap.length] ∧
        w1.heap[w.heap.length]? = some (some (Obj.vecmat v)) ∧
        ∃ w2 st2,
          runCall lib (Call.AlignMTB_Process_Async b src) cb1 cb2 w1 = some (w2, st2) ∧
          w2.events = w1.events ++ [Event.cb1 w1.heap.length] ∧
          w2.heap[w1.heap.length]? = some (some (Obj.vecmat v))) := by
  constructor
  · intro b src w1 st1 h1 hok
    unfold runCall bodyRun at h1
    obtain ⟨p, hp, hpe⟩ := Option.map_eq_some'.mp h1
    obtain ⟨out, hout, hoe⟩ := Option.map_eq_some'.mp hp
    simp only [interp, Option.bind_eq_some, Option.some.injEq] at hout
    obtain ⟨f, hf, v, hv, hlift⟩ := hout
    cases hm : lib.mergeMertensProcess f v with
    | error e =>
      rw [hm] at hlift
      simp only [liftOut] at hlift
      subst hlift
      simp only [execOutcome] at hoe
      subst hoe
      simp only [Prod.ext_iff] at hpe
      rw [← hpe.2] at hok
      exact absurd hok (wrapStatus_error_ne_ok _ _ e)
    | ok m =>
      rw [hm] at hlift
      simp only [liftOut] at hlift
      subst hlift
      simp only [execOutcome, deliver1] at hoe
      subst hoe
      simp only [Prod.ext_iff] at hpe
      obtain ⟨hw1, hst1⟩ := hpe
      subst hw1
      have hfb := derefFuse_eq_some.mp hf
      have hvb := derefVecMat_eq_some.mp hv
      have hf2 : derefFuse
          { heap := w.heap ++ [some (Obj.mat m)],
            events := w.events ++ [Event.cb1 w.heap.length] } b = some f :=
        derefFuse_eq_some.mpr (by
          rw [getElem?_append_left (getElem?_some_lt hfb)]
          exact hfb)
      have hv2 : derefVecMat
          { heap := w.heap ++ [some (Obj.mat m)],
            events := w.events ++ [Event.cb1 w.heap.length] } src = some v :=
        derefVecMat_eq_some.mpr (by
          rw [getElem?_append_left (getElem?_some_lt hvb)]
          exact hvb)
      refine ⟨m, rfl, List.getElem?_concat_length _ _, ?_⟩
      have hi2 : interp lib
          { heap := w.heap ++ [some (Obj.mat m)],
            events := w.events ++ [Event.cb1 w.heap.length] }
          (Call.MergeMertens_Process_Async b src) = some (Outcome.out1 (Obj.mat m)) := by
        simp only [interp, hf2, hv2, Option.some_bind, hm, liftOut]
      refine ⟨{ heap := (w.heap ++ [some (Obj.mat m)]) ++ [some (Obj.mat m)],
                events := (w.events ++ [Event.cb1 w.heap.length])
                  ++ [Event.cb1 (w.heap ++ [some (Obj.mat m)]).length] },
              wrapStatus catchFile (Call.MergeMertens_Process_Async b src).endLine
                (cb1 (w.heap ++ [some (Obj.mat m)]).length),
              ?_, rfl, ?_⟩
      · unfold runCall bodyRun
        rw [hi2]
        rfl
      · exact List.getElem?_concat_length _ _
  · intro b src w1 st1 h1 hok
    unfold runCall bodyRun at h1
    obtain ⟨p, hp, hpe⟩ := Option.map_eq_some'.mp h1
    obtain ⟨out, hout, hoe⟩ := Option.map_eq_some'.mp hp
    simp only [interp, Option.bind_eq_some, Option.some.injEq] at hout
    obtain ⟨al, hal, v, hv, hlift⟩ := hout
    cases hm : lib.alignMTBProcess al v with
    | error e =>
      rw [hm] at hlift
      simp only [liftOut] at hlift
      subst hlift
      simp only [execOutcome] at hoe
      subst hoe
      simp only [Prod.ext_iff] at hpe
      rw [← hpe.2] at hok
      exact absurd hok (wrapStatus_error_ne_ok _ _ e)
    | ok ov =>
      rw [hm] at hlift
      simp only [liftOut] at hlift
      subst hlift
      simp only [execOutcome, deliver1] at hoe
      subst hoe
      simp only [Prod.ext_iff] at hpe
      obtain ⟨hw1, hst1⟩ := hpe
      subst hw1
      have hab := derefAlign_eq_some.mp hal
      have hvb := derefVecMat_eq_some.mp hv
      have ha2 : derefAlign
          { heap := w.heap ++ [some (Obj.vecmat ov)],
            events := w.events ++ [Event.cb1 w.heap.length] } b = some al :=
        derefAlign_eq_some.mpr (by
          rw [getElem?_append_left (getElem?_some_lt hab)]
          exact hab)
      have hv2 : derefVecMat
          { heap := w.heap ++ [some (Obj.vecmat ov)],
            events := w.events ++ [Event.cb1 w.heap.length] } src = some v :=
        derefVecMat_eq_some.mpr (by
          rw [getElem?_append_left (getElem?_some_lt hvb)]
          exact hvb)
      refine ⟨ov, rfl, List.getElem?_concat_length _ _, ?_⟩
      have hi2 : interp lib
          { heap := w.heap ++ [some (Obj.vecmat ov)],
            events := w.events ++ [Event.cb1 w.heap.length] }
          (Call.AlignMTB_Process_Async b src) = some (Outcome.out1 (Obj.vecmat ov)) := by
        simp only [interp, ha2, hv2, Option.some_bind, hm, liftOut]
      refine ⟨{ heap := (w.heap ++ [some (Obj.vecmat ov)]) ++ [some (Obj.vecmat ov)],
                events := (w.events ++ [Event.cb1 w.heap.length])
                  ++ [Event.cb1 (w.heap ++ [some (Obj.vecmat ov)]).length] },
              wrapStatus catchFile (Call.AlignMTB_Process_Async b src).endLine
                (cb1 (w.heap ++ [some (Obj.vecmat ov)]).length),
              ?_, rfl, ?_⟩
      · unfold runCall bodyRun
        rw [hi2]
        rfl
      · exact List.getElem?_concat_length _ _

/-- Witness for C6 at a concrete MergeMertens process call repeated twice. -/
theorem C6_process_repeatable_witness :
    ∃ m,
      ({ heap := [some (Obj.fuse ⟨1, 1, 0⟩), some (Obj.vecmat [m0]), some (Obj.mat m0)],
         events := [Event.cb1 2] } : World).events = wProc.events ++ [Event.cb1 2] ∧
      ({ heap := [some (Obj.fuse ⟨1, 1, 0⟩), some (Obj.vecmat [m0]), some (Obj.mat m0)],
         events := [Event.cb1 2] } : World).heap[2]? = some (some (Obj.mat m)) ∧
      ∃ w2 st2,
        runCall libStub (Call.MergeMertens_Process_Async 0 1) cbOk1 cbOk2
          { heap := [some (Obj.fuse ⟨1, 1, 0⟩), some (Obj.vecmat [m0]), some (Obj.mat m0)],
            events := [Event.cb1 2] } = some (w2, st2) ∧
        w2.events =
          ({ heap := [some (Obj.fuse ⟨1, 1, 0⟩), some (Obj.vecmat [m0]), some (Obj.mat m0)],
             events := [Event.cb1 2] } : World).events ++ [Event.cb1 3] ∧
        w2.heap[3]? = some (some (Obj.mat m)) :=
  (C6_process_repeatable libStub cbOk1 cbOk2 wProc).1 0 1
    { heap := [some (Obj.fuse ⟨1, 1, 0⟩), some (Obj.vecmat [m0]), some (Obj.mat m0)],
      events := [Event.cb1 2] }
    Status.ok rfl rfl

theorem pencil_heap_first (h : List (Option Obj)) (d1 d2 : Addr) (m1 m2 : MatData) :
    ((h.set d1 (some (Obj.mat m1))).set d2 (some (Obj.mat m2))
      ++ [some (Obj.mat m1), some (Obj.mat m2)])[h.length]? = some (some (Obj.mat m1)) := by
  rw [show ([some (Obj.mat m1), some (Obj.mat m2)] : List (Option Obj)) =
      [some (Obj.mat m1)] ++ [some (Obj.mat m2)] from rfl, ← List.append_assoc]
  rw [getElem?_append_left (by simp [List.length_set])]
  have hl : ((h.set d1 (some (Obj.mat m1))).set d2 (some (Obj.mat m2))).length = h.length := by
    simp [List.length_set]
  rw [← hl]
  exact List.getElem?_concat_length _ _

theorem pencil_heap_snd (h : List (Option Obj)) (d1 d2 : Addr) (m1 m2 : MatData) :
    ((h.set d1 (some (Obj.mat m1))).set d2 (some (Obj.mat m2))
      ++ [some (Obj.mat m1), some (Obj.mat m2)])[h.length + 1]? = some (some (Obj.mat m2)) := by
  rw [show ([some (Obj.mat m1), some (Obj.mat m2)] : List (Option Obj)) =
      [some (Obj.mat m1)] ++ [some (Obj.mat m2)] from rfl, ← List.append_assoc]
  have hl : (((h.set d1 (some (Obj.mat m1))).set d2 (some (Obj.mat m2)))
      ++ [some (Obj.mat m1)]).length = h.length + 1 := by
    simp [List.length_set]
  rw [← hl]
  exact List.getElem?_concat_length _ _

theorem set2_get_ne (l : List (Option Obj)) (d1 d2 i : Nat) (o1 o2 : Option Obj)
    (h1 : d1 ≠ i) (h2 : d2 ≠ i) : ((l.set d1 o1).set d2 o2)[i]? = l[i]? := by
  rw [List.getElem?_set, if_neg h2, List.getElem?_set, if_neg h1]

/-- Claim C8: delivery is synchronous: when an entry point returns the OK
Status, the world handed back together with that Status already records
exactly one new callback invocation, and every handle that invocation carries
is already allocated in the returned heap — the callback ran before the entry
point returned. Each entry point is a single total step of the model; there
is no suspension point. -/
theorem C8_synchronous_delivery (lib : NativeLib) (c : Call) (cb1 : CB1) (cb2 : CB2)
    (w w2 : World) (st : Status)
    (h : runCall lib c cb1 cb2 w = some (w2, st)) (hok : st = Status.ok) :
    ∃ ev, w2.events = w.events ++ [ev] ∧
      ∀ a ∈ ev.addrs, ∃ o, w2.heap[a]? = some (some o) := by
  unfold runCall bodyRun at h
  cases hint : interp lib w c with
  | none => rw [hint] at h; exact absurd h (by simp)
  | some out =>
    rw [hint] at h
    simp only [Option.map_some', Option.some.injEq, Prod.ext_iff] at h
    obtain ⟨hw, hst⟩ := h
    obtain ⟨hins, hout⟩ := interp_characterize hint
    rcases hout with ⟨e, rfl⟩ | ⟨o, rfl, hcb⟩ | ⟨d1, d2, m1, m2, rfl, hcb, hd1in, hd2in, hx1, hx2⟩
    · simp only [execOutcome] at hst
      rw [← hst] at hok
      exact absurd hok (wrapStatus_error_ne_ok _ _ e)
    · simp only [execOutcome, deliver1] at hw
      subst hw
      refine ⟨Event.cb1 w.heap.length, rfl, ?_⟩
      intro a ha
      simp only [Event.addrs, List.mem_singleton] at ha
      subst ha
      exact ⟨o, List.getElem?_concat_length _ _⟩
    · simp only [execOutcome, deliver2, writeHeap, List.length_set] at hw
      subst hw
      refine ⟨Event.cb2 w.heap.length (w.heap.length + 1), rfl, ?_⟩
      intro a ha
      simp only [Event.addrs, List.mem_cons, List.mem_singleton, List.not_mem_nil,
        or_false] at ha
      rcases ha with rfl | rfl
      · exact ⟨Obj.mat m1, pencil_heap_first _ _ _ _ _⟩
      · exact ⟨Obj.mat m2, pencil_heap_snd _ _ _ _ _⟩

/-- Witness for C8 at a concrete successful PencilSketch call. -/
theorem C8_synchronous_delivery_witness :
    ∃ ev,
      ({ heap := [some (Obj.mat m0), some (Obj.mat m0), some (Obj.mat m0), some (Obj.mat m0)],
         events := [Event.cb2 2 3] } : World).events = w0.events ++ [ev] ∧
      ∀ a ∈ ev.addrs, ∃ o,
        ({ heap := [some (Obj.mat m0), some (Obj.mat m0), some (Obj.mat m0), some (Obj.mat m0)],
           events := [Event.cb2 2 3] } : World).heap[a]? = some (some o) :=
  C8_synchronous_delivery libStub (Call.PencilSketch_Async 0 0 1 60 1 1) cbOk1 cbOk2 w0
    { heap := [some (Obj.mat m0), some (Obj.mat m0), some (Obj.mat m0), some (Obj.mat m0)],
      events := [Event.cb2 2 3] }
    Status.ok rfl rfl

/-- Claim C9: input handles are only borrowed: after any entry point returns,
the heap has not shrunk, every input address still holds an allocated native
object (nothing was freed beneath the caller, nothing retained in its place),
and an algorithm object (MergeMertens or AlignMTB) at any address is left
bit-for-bit unchanged, so algorithm handles remain valid for reuse across any
number of subsequent process calls. -/
theorem C9_inputs_borrowed (lib : NativeLib) (c : Call) (cb1 : CB1) (cb2 : CB2)
    (w w2 : World) (st : Status)
    (h : runCall lib c cb1 cb2 w = some (w2, st)) :
    w.heap.length ≤ w2.heap.length ∧
    (∀ i ∈ c.inputs,
      (∃ o, w.heap[i]? = some (some o)) ∧ ∃ o2, w2.heap[i]? = some (some o2)) ∧
    (∀ (a : Addr) (f : FuseData), w.heap[a]? = some (some (Obj.fuse f)) →
      w2.heap[a]? = some (some (Obj.fuse f))) ∧
    (∀ (a : Addr) (al : AlignData), w.heap[a]? = some (some (Obj.align al)) →
      w2.heap[a]? = some (some (Obj.align al))) := by
  unfold runCall bodyRun at h
  cases hint : interp lib w c with
  | none => rw [hint] at h; exact absurd h (by simp)
  | some out =>
    rw [hint] at h
    simp only [Option.map_some', Option.some.injEq, Prod.ext_iff] at h
    obtain ⟨hw, hst⟩ := h
    obtain ⟨hins, hout⟩ := interp_characterize hint
    rcases hout with ⟨e, rfl⟩ | ⟨o, rfl, hcb⟩ | ⟨d1, d2, m1, m2, rfl, hcb, hd1in, hd2in, hx1, hx2⟩
    · simp only [execOutcome] at hw
      subst hw
      exact ⟨le_refl _, fun i hi => ⟨hins i hi, hins i hi⟩,
        fun a f hf => hf, fun a al hal => hal⟩
    · simp only [execOutcome, deliver1] at hw
      subst hw
      refine ⟨by simp, fun i hi => ?_, fun a f hf => ?_, fun a al hal => ?_⟩
      · obtain ⟨oi, hoi⟩ := hins i hi
        exact ⟨⟨oi, hoi⟩, oi, by rw [getElem?_append_left (getElem?_some_lt hoi)]; exact hoi⟩
      · rw [getElem?_append_left (getElem?_some_lt hf)]
        exact hf
      · rw [getElem?_append_left (getElem?_some_lt hal)]
        exact hal
    · simp only [execOutcome, deliver2, writeHeap, List.length_set] at hw
      subst hw
      obtain ⟨x1, hx1⟩ := hx1
      obtain ⟨x2, hx2⟩ := hx2
      have hd1lt : d1 < w.heap.length := getElem?_some_lt hx1
      have hd2lt : d2 < w.heap.length := getElem?_some_lt hx2
      refine ⟨by simp [List.length_set], fun i hi => ?_, fun a f hf => ?_, fun a al hal => ?_⟩
      · obtain ⟨oi, hoi⟩ := hins i hi
        have hilt : i < w.heap.length := getElem?_some_lt hoi
        refine ⟨⟨oi, hoi⟩, ?_⟩
        rw [getElem?_append_left (by simp [List.length_set]; exact hilt)]
        by_cases h2 : d2 = i
        · subst h2
          exact ⟨Obj.mat m2, by rw [List.getElem?_set, if_pos rfl,
              if_pos (by simp [List.length_set]; exact hilt)]⟩
        · by_cases h1 : d1 = i
          · subst h1
            exact ⟨Obj.mat m1, by rw [List.getElem?_set, if_neg h2,
                List.getElem?_set, if_pos rfl, if_pos hilt]⟩
          · exact ⟨oi, by rw [set2_get_ne _ _ _ _ _ _ h1 h2]; exact hoi⟩
      · have hne1 : d1 ≠ a := by
          intro hh
          subst hh
          rw [hf] at hx1
          simp at hx1
        have hne2 : d2 ≠ a := by
          intro hh
          subst hh
          rw [hf] at hx2
          simp at hx2
        rw [getElem?_append_left
          (by simp [List.length_set]; exact getElem?_some_lt hf),
          set2_get_ne _ _ _ _ _ _ hne1 hne2]
        exact hf
      · have hne1 : d1 ≠ a := by
          intro hh
          subst hh
          rw [hal] at hx1
          simp at hx1
        have hne2 : d2 ≠ a := by
          intro hh
          subst hh
          rw [hal] at hx2
          simp at hx2
        rw [getElem?_append_left
          (by simp [List.length_set]; exact getElem?_some_lt hal),
          set2_get_ne _ _ _ _ _ _ hne1 hne2]
        exact hal

/-- Witness for C9 at a concrete MergeMertens process call: the fusion
algorithm handle at address 0 is untouched by the call. -/
theorem C9_inputs_borrowed_witness :
    wProc.heap.length ≤
      ({ heap := [some (Obj.fuse ⟨1, 1, 0⟩), some (Obj.vecmat [m0]), some (Obj.mat m0)],
         events := [Event.cb1 2] } : World).heap.length ∧
    (∃ o2, ({ heap := [some (Obj.fuse ⟨1, 1, 0⟩), some (Obj.vecmat [m0]), some (Obj.mat m0)],
              events := [Event.cb1 2] } : World).heap[0]? = some (some o2)) ∧
    ({ heap := [some (Obj.fuse ⟨1, 1, 0⟩), some (Obj.vecmat [m0]), some (Obj.mat m0)],
       events := [Event.cb1 2] } : World).heap[0]? = some (some (Obj.fuse ⟨1, 1, 0⟩)) := by
  have h := C9_inputs_borrowed libStub (Call.MergeMertens_Process_Async 0 1) cbOk1 cbOk2 wProc
    { heap := [some (Obj.fuse ⟨1, 1, 0⟩), some (Obj.vecmat [m0]), some (Obj.mat m0)],
      events := [Event.cb1 2] }
    Status.ok rfl
  exact ⟨h.1, (h.2.1 0 (by simp [Call.inputs])).2, h.2.2.1 0 ⟨1, 1, 0⟩ rfl⟩

/-- Witness for C10 at a concrete call whose callback raises. -/
theorem C10_callback_raise_caught_witness :
    Status.internalError "Unknown error" "photo_async.cpp" 11 =
      wrapStatus catchFile (Call.ColorChange_Async 0 1 1 1 1).endLine
        (Except.error CvExn.otherExn) ∧
    Status.internalError "Unknown error" "photo_async.cpp" 11 ≠ Status.ok :=
  (C10_callback_raise_caught libStub (Call.ColorChange_Async 0 1 1 1 1) cbThrow cbOk2 w0
      { heap := [some (Obj.mat m0), some (Obj.mat m0), some (Obj.mat m0)],
        events := [Event.cb1 2] }
      (Status.internalError "Unknown error" "photo_async.cpp" 11) CvExn.otherExn rfl).1
    2 rfl rfl

theorem toExcept_liftOut {α : Type} (f : α → Obj) (r : Except CvExn α) :
    (liftOut f r).toExcept = exnOf r := by
  cases r <;> rfl

theorem toExcept_pencilOut (d1 d2 : Addr) (r : Except CvExn (MatData × MatData)) :
    (pencilOut d1 d2 r).toExcept = exnOf r := by
  rcases r with e | ⟨m1, m2⟩ <;> rfl

theorem map_bind_fun {α β γ : Type} (x : Option α) (f : α → Option β) (g : β → γ) :
    (x.bind f).map g = x.bind fun a => (f a).map g := by
  cases x <;> rfl

/-- Claim C7: no entry point pre-validates its scalar parameters or input
handles: the body consults the native library at exactly the documented
routine, applied to the dereferenced inputs with every scalar forwarded
unchanged in the documented order (the refinement equation against
nativeCallSpec, which holds for every possible native library), and whenever
that routine raises, the raised condition is the entire failure: the world is
returned unchanged — no callback invocation, no allocation — with the Status
wrapping exactly the native error. -/
theorem C7_no_prevalidation (lib : NativeLib) (w : World) (c : Call) :
    ((interp lib w c).map Outcome.toExcept = nativeCallSpec lib w c) ∧
    (∀ cb1 cb2 e, interp lib w c = some (Outcome.fail e) →
      runCall lib c cb1 cb2 w =
        some (w, wrapStatus catchFile c.endLine (Except.error e))) := by
  constructor
  · cases c <;>
      simp only [interp, nativeCallSpec, map_bind_fun, Option.map_some',
        toExcept_liftOut, toExcept_pencilOut]
  · intro cb1 cb2 e hint
    unfold runCall bodyRun
    rw [hint]
    rfl

/-- Witness for C7 at a concrete call whose native routine raises. -/
theorem C7_no_prevalidation_witness :
    runCall libStubFail (Call.ColorChange_Async 0 1 1 1 1) cbOk1 cbOk2 w0 =
      some (w0, wrapStatus catchFile (Call.ColorChange_Async 0 1 1 1 1).endLine
        (Except.error (CvExn.libExn "sizes mismatch"))) :=
  (C7_no_prevalidation libStubFail w0 (Call.ColorChange_Async 0 1 1 1 1)).2 cbOk1 cbOk2
    (CvExn.libExn "sizes mismatch") rfl

end PhotoAsync
